import Mathlib

/-!
Verification of the `cracking-interview` repository: shallow embeddings of the
design-pattern demo scripts and checks of the stated properties.

Sections:
1. Python attribute-lookup model for the Builder demo (`builder/solution.py`)
2. `HttpRequestBuilder.build` validation (`builder/solution.py`)
3. Text editor and memento history (`memento/solution.py`)
4. Singleton configuration manager (`singleton/solution.py`)
5. Dot-notation configuration tree get/set (`singleton/solution.py`)
6. Repository file manifest (`main()`-driven scripts claim)
7. Object pool acquire loop (`object-pool/solution.py`)
8. Call graph of the object-pool demo (`object-pool/solution.py`)
-/

/-! ## Section 1: Python attribute model for the Builder demo

`HttpRequestBuilder.__init__` assigns instance attributes named `headers`,
`query_params`, `timeout`, `retries`, `cookies`, `follow_redirects` and
`verify_ssl`; the class body also defines methods of those names.  Python
attribute lookup consults the instance `__dict__` before the class `__dict__`
for plain functions (non-data descriptors), so the instance values shadow the
methods.  We embed the two dictionaries and the lookup/call semantics. -/

/-- A Python runtime value, at the granularity the builder demo needs. -/
inductive PyVal where
  | int (n : Int)
  | str (s : String)
  | bool (b : Bool)
  | dict (entries : List (String × PyVal))
  | pyNone
  | enumMember (cls member : String)
  | method (name : String)

/-- Only functions/methods are callable among the values the demo stores. -/
def PyVal.isCallable : PyVal → Bool
  | .method _ => true
  | _ => false

/-- Python dict assignment `d[k] = v`: replace in place or append. -/
def dictAssign {α : Type} (d : List (String × α)) (k : String) (v : α) :
    List (String × α) :=
  if d.any (fun kv => kv.1 = k) then
    d.map (fun kv => if kv.1 = k then (k, v) else kv)
  else
    d ++ [(k, v)]

/-- Python `d1.update(d2)`: assign every entry of `d2` into `d1` in order. -/
def dictUpdate {α : Type} (d1 d2 : List (String × α)) : List (String × α) :=
  d2.foldl (fun acc kv => dictAssign acc kv.1 kv.2) d1

/-- The class `__dict__` of `HttpRequestBuilder`: every `def` in the class
body, in source order (builder/solution.py lines 104-216). -/
def httpRequestBuilderClassDict : List (String × PyVal) :=
  [(("header"), .method ("header")),
   (("headers"), .method ("headers")),
   (("content_type"), .method ("content_type")),
   (("json_content"), .method ("json_content")),
   (("form_content"), .method ("form_content")),
   (("query_param"), .method ("query_param")),
   (("query_params"), .method ("query_params")),
   (("json_body"), .method ("json_body")),
   (("form_body"), .method ("form_body")),
   (("raw_body"), .method ("raw_body")),
   (("timeout"), .method ("timeout")),
   (("retries"), .method ("retries")),
   (("basic_auth"), .method ("basic_auth")),
   (("bearer_token"), .method ("bearer_token")),
   (("cookie"), .method ("cookie")),
   (("cookies"), .method ("cookies")),
   (("follow_redirects"), .method ("follow_redirects")),
   (("verify_ssl"), .method ("verify_ssl")),
   (("build"), .method ("build"))]

/-- The instance `__dict__` right after `HttpRequestBuilder.__init__(url,
method)` (builder/solution.py lines 88-102), in assignment order. -/
def freshBuilderInstanceDict (url : String) (method : String) :
    List (String × PyVal) :=
  [(("url"), .str url),
   (("method"), .enumMember ("HttpMethod") method),
   (("headers"), .dict []),
   (("query_params"), .dict []),
   (("body"), .pyNone),
   (("timeout"), .int 30),
   (("retries"), .int 3),
   (("auth"), .pyNone),
   (("cookies"), .dict []),
   (("follow_redirects"), .bool true),
   (("verify_ssl"), .bool true)]

/-- Python attribute lookup on an instance whose class defines only plain
functions: the instance `__dict__` wins over the class `__dict__`. -/
def lookupAttr (instDict classDict : List (String × PyVal)) (name : String) :
    Option PyVal :=
  match instDict.lookup name with
  | some v => some v
  | Option.none => classDict.lookup name

/-- Outcome of evaluating `obj.name(arg)` on a builder instance. -/
inductive CallOutcome where
  /-- The attribute's value is not callable: `TypeError`. -/
  | typeError
  /-- Attribute missing on instance and class: `AttributeError`. -/
  | attributeError
  /-- A method body raised `ValueError`. -/
  | valueError
  /-- A method body raised `TypeError` on a bad argument shape. -/
  | argumentTypeError
  /-- The method ran; the instance `__dict__` afterwards (methods return
  `self`, whose `__dict__` this is). -/
  | ok (newInstDict : List (String × PyVal))

/-- Bodies of the seven shadowed fluent methods, from builder/solution.py:
`headers` (109-112), `query_params` (132-135), `timeout` (154-159),
`retries` (161-166), `cookies` (184-187), `follow_redirects` (189-192),
`verify_ssl` (194-197).  `self` is represented by its `__dict__`. -/
def runBuilderMethod (self : List (String × PyVal)) (name : String)
    (arg : PyVal) : CallOutcome :=
  if name = ("headers") then
    match arg with
    | .dict d2 =>
      match self.lookup ("headers") with
      | some (.dict d1) =>
        .ok (dictAssign self ("headers") (.dict (dictUpdate d1 d2)))
      | _ => .argumentTypeError
    | _ => .argumentTypeError
  else if name = ("query_params") then
    match arg with
    | .dict d2 =>
      match self.lookup ("query_params") with
      | some (.dict d1) =>
        .ok (dictAssign self ("query_params") (.dict (dictUpdate d1 d2)))
      | _ => .argumentTypeError
    | _ => .argumentTypeError
  else if name = ("timeout") then
    match arg with
    | .int seconds =>
      if seconds ≤ 0 then .valueError
      else .ok (dictAssign self ("timeout") (.int seconds))
    | _ => .argumentTypeError
  else if name = ("retries") then
    match arg with
    | .int count =>
      if count < 0 then .valueError
      else .ok (dictAssign self ("retries") (.int count))
    | _ => .argumentTypeError
  else if name = ("cookies") then
    match arg with
    | .dict d2 =>
      match self.lookup ("cookies") with
      | some (.dict d1) =>
        .ok (dictAssign self ("cookies") (.dict (dictUpdate d1 d2)))
      | _ => .argumentTypeError
    | _ => .argumentTypeError
  else if name = ("follow_redirects") then
    match arg with
    | .bool b => .ok (dictAssign self ("follow_redirects") (.bool b))
    | _ => .argumentTypeError
  else if name = ("verify_ssl") then
    match arg with
    | .bool b => .ok (dictAssign self ("verify_ssl") (.bool b))
    | _ => .argumentTypeError
  else
    .attributeError

/-- Evaluate the attribute call `instance.name(arg)`: look the name up
(instance `__dict__` first), raise `TypeError` if the found value is not
callable, otherwise run the bound method's body. -/
def callBuilderAttr (instDict : List (String × PyVal)) (name : String)
    (arg : PyVal) : CallOutcome :=
  match lookupAttr instDict httpRequestBuilderClassDict name with
  | Option.none => .attributeError
  | some v =>
    match v with
    | .method m => runBuilderMethod instDict m arg
    | _ => .typeError

/-- The seven method names shadowed by `__init__`'s instance attributes. -/
def shadowedNames : List String :=
  [("timeout"), ("retries"), ("headers"), ("query_params"), ("cookies"),
   ("follow_redirects"), ("verify_ssl")]

/-! ## Section 2: `HttpRequestBuilder.build` (builder/solution.py 199-216) -/

/-- The `HttpMethod` enum (builder/solution.py lines 9-14). -/
inductive HttpMethod where
  | GET | POST | PUT | DELETE | PATCH
deriving Repr, DecidableEq

/-- Builder state: the fields `__init__` assigns (builder/solution.py lines
88-102).  `Dict[str, str]` fields are string association lists; `Any`-typed
fields are embedded as `PyVal`. -/
structure HttpRequestBuilderState where
  url : String
  method : HttpMethod
  headers : List (String × String)
  query_params : List (String × PyVal)
  body : Option PyVal
  timeout : Int
  retries : Int
  auth : Option (List (String × PyVal))
  cookies : List (String × String)
  follow_redirects : Bool
  verify_ssl : Bool

/-- The product: `HttpRequest.__init__` copies every builder field
(builder/solution.py lines 16-33). -/
structure HttpRequest where
  url : String
  method : HttpMethod
  headers : List (String × String)
  query_params : List (String × PyVal)
  body : Option PyVal
  timeout : Int
  retries : Int
  auth : Option (List (String × PyVal))
  cookies : List (String × String)
  follow_redirects : Bool
  verify_ssl : Bool

/-- Python `s.startswith(px)`, on the character lists (kernel-reducible). -/
def pyStartsWith (s px : String) : Bool :=
  px.data.isPrefixOf s.data

/-- The two `ValueError`s `build` can raise. -/
inductive BuildError where
  | urlRequired
  | urlBadScheme
deriving Repr, DecidableEq

/-- `'; '.join(f"k=v" ...)` over the cookie dict, for the `Cookie` header. -/
def cookieString (cookies : List (String × String)) : String :=
  String.intercalate ("; ") (cookies.map (fun kv => kv.1 ++ ("=") ++ kv.2))

/-- `HttpRequestBuilder.build` (builder/solution.py lines 199-216): reject an
empty url, reject a url that starts with neither scheme, add a `Cookie`
header when cookies are present, then construct the `HttpRequest`.  The
body-warning branch only prints and is omitted. -/
def HttpRequestBuilderState.build (b : HttpRequestBuilderState) :
    Except BuildError HttpRequest :=
  if b.url = ("") then
    .error .urlRequired
  else if ¬ (pyStartsWith b.url ("http://") || pyStartsWith b.url ("https://")) then
    .error .urlBadScheme
  else
    let headers :=
      if b.cookies.isEmpty then b.headers
      else dictAssign b.headers ("Cookie") (cookieString b.cookies)
    .ok { url := b.url, method := b.method, headers := headers,
          query_params := b.query_params, body := b.body,
          timeout := b.timeout, retries := b.retries, auth := b.auth,
          cookies := b.cookies, follow_redirects := b.follow_redirects,
          verify_ssl := b.verify_ssl }

/-! ## Section 3: Text editor and memento history (memento/solution.py)

Python strings are embedded as `String`, cursor positions as `Int` (Python
ints).  One-sided slices `s[:i]` and `s[i:]` follow Python semantics: a
negative index counts from the end, an out-of-range index clamps. -/

/-- Effective index of a Python slice bound `i` on a sequence of length `n`:
negative counts from the end (clamped at 0), positive clamps at `n`. -/
def pySliceIndex (n : Nat) (i : Int) : Nat :=
  if i < 0 then ((n : Int) + i).toNat else min i.toNat n

/-- Python `s[:i]`. -/
def pyTake (s : String) (i : Int) : String :=
  ⟨s.data.take (pySliceIndex s.length i)⟩

/-- Python `s[i:]`. -/
def pyDrop (s : String) (i : Int) : String :=
  ⟨s.data.drop (pySliceIndex s.length i)⟩

/-- Python `s[a:b]`. -/
def pySlice (s : String) (a b : Int) : String :=
  ⟨(s.data.take (pySliceIndex s.length b)).drop (pySliceIndex s.length a)⟩

/-- `TextEditorMemento` (memento/solution.py lines 3-21): a frozen copy of
the editor's three fields. -/
structure TextEditorMemento where
  content : String
  cursor_position : Int
  selection_text : String

/-- `TextEditor` state (memento/solution.py lines 24-30). -/
structure TextEditor where
  content : String
  cursor_position : Int
  selection_text : String

/-- `TextEditor.__init__` (lines 27-30). -/
def TextEditor.init : TextEditor :=
  { content := (""), cursor_position := 0, selection_text := ("") }

/-- `TextEditor.write` (lines 32-38): splice `text` at the cursor, advance
the cursor by `len(text)`, clear the selection. -/
def TextEditor.write (e : TextEditor) (text : String) : TextEditor :=
  { content := pyTake e.content e.cursor_position ++ text ++
               pyDrop e.content e.cursor_position,
    cursor_position := e.cursor_position + text.length,
    selection_text := ("") }

/-- `TextEditor.delete` (lines 40-46): remove `characters` characters before
the cursor (`start_pos = max(0, cursor - characters)`). -/
def TextEditor.delete (e : TextEditor) (characters : Int) : TextEditor :=
  let start_pos : Int := max 0 (e.cursor_position - characters)
  { content := pyTake e.content start_pos ++ pyDrop e.content e.cursor_position,
    cursor_position := start_pos,
    selection_text := ("") }

/-- `TextEditor.set_cursor_position` (lines 48-50): clamp into
`[0, len(content)]`. -/
def TextEditor.set_cursor_position (e : TextEditor) (position : Int) :
    TextEditor :=
  { e with cursor_position := max 0 (min position (e.content.length : Int)) }

/-- `TextEditor.select_text` (lines 52-55): only acts when
`0 <= start_pos <= end_pos <= len(content)`. -/
def TextEditor.select_text (e : TextEditor) (start_pos end_pos : Int) :
    TextEditor :=
  if 0 ≤ start_pos ∧ start_pos ≤ end_pos ∧ end_pos ≤ (e.content.length : Int)
  then { e with selection_text := pySlice e.content start_pos end_pos }
  else e

/-- `TextEditor.create_memento` (lines 57-59). -/
def TextEditor.create_memento (e : TextEditor) : TextEditorMemento :=
  { content := e.content, cursor_position := e.cursor_position,
    selection_text := e.selection_text }

/-- `TextEditor.restore_from_memento` (lines 61-65). -/
def TextEditor.restore_from_memento (_e : TextEditor)
    (m : TextEditorMemento) : TextEditor :=
  { content := m.content, cursor_position := m.cursor_position,
    selection_text := m.selection_text }

/-- `EditorHistory` (memento/solution.py lines 83-115).  The Python lists
append and pop at the right end; they are modeled with the top of each stack
at the head. -/
structure EditorHistory where
  undo_stack : List TextEditorMemento
  redo_stack : List TextEditorMemento

/-- `EditorHistory.__init__` (lines 86-88). -/
def EditorHistory.init : EditorHistory :=
  { undo_stack := [], redo_stack := [] }

/-- `EditorHistory.save_state` (lines 90-93): push a memento of the current
editor state and clear the redo stack. -/
def EditorHistory.save_state (h : EditorHistory) (e : TextEditor) :
    EditorHistory :=
  { undo_stack := e.create_memento :: h.undo_stack, redo_stack := [] }

/-- `EditorHistory.undo` (lines 95-100): if possible, push the current state
on the redo stack, pop the undo stack and restore from it.  Returns the
updated history and editor. -/
def EditorHistory.undo (h : EditorHistory) (e : TextEditor) :
    EditorHistory × TextEditor :=
  match h.undo_stack with
  | [] => (h, e)
  | m :: rest =>
    ({ undo_stack := rest, redo_stack := e.create_memento :: h.redo_stack },
     e.restore_from_memento m)

/-- `EditorHistory.redo` (lines 102-107). -/
def EditorHistory.redo (h : EditorHistory) (e : TextEditor) :
    EditorHistory × TextEditor :=
  match h.redo_stack with
  | [] => (h, e)
  | m :: rest =>
    ({ undo_stack := e.create_memento :: h.undo_stack, redo_stack := rest },
     e.restore_from_memento m)

/-- The cursor range invariant `0 <= cursor_position <= len(content)`. -/
def cursorInvariant (e : TextEditor) : Prop :=
  0 ≤ e.cursor_position ∧ e.cursor_position ≤ (e.content.length : Int)

instance (e : TextEditor) : Decidable (cursorInvariant e) :=
  inferInstanceAs (Decidable (_ ∧ _))

/-! ## Section 4: Singleton configuration manager (singleton/solution.py)

`ConfigurationManager.__new__` (lines 25-32) uses double-checked locking on
the class attribute `_instance`; `__init__` (lines 34-56) guards its body
with the instance flag `_initialized`; `get_instance` (lines 91-94) returns
`cls()`.  Calls are modeled as a sequential state machine over the class
state; object identity is an allocation counter. -/

/-- Class-level state of `ConfigurationManager`: the `_instance` attribute
(by allocation id), the `_initialized` flag on that instance, how many times
the body of `__init__` past the guard has run, and the allocator. -/
structure SingletonClassState where
  instanceId : Option Nat
  instInitialized : Bool
  initBodyRuns : Nat
  nextAllocId : Nat

/-- Interpreter start state: no instance allocated yet. -/
def SingletonClassState.start : SingletonClassState :=
  { instanceId := Option.none, instInitialized := false,
    initBodyRuns := 0, nextAllocId := 0 }

/-- `__new__` (lines 25-32): allocate on first call (setting
`_initialized = False`), afterwards return the stored instance. -/
def configManagerNew (s : SingletonClassState) : SingletonClassState × Nat :=
  match s.instanceId with
  | Option.none =>
    ({ s with instanceId := some s.nextAllocId, instInitialized := false,
              nextAllocId := s.nextAllocId + 1 }, s.nextAllocId)
  | some i => (s, i)

/-- `__init__` (lines 34-56): return early when `_initialized` is set,
otherwise run the initialization body once and set the flag. -/
def configManagerInit (s : SingletonClassState) : SingletonClassState :=
  if s.instInitialized then s
  else { s with instInitialized := true, initBodyRuns := s.initBodyRuns + 1 }

/-- `ConfigurationManager()`: Python runs `__new__` then `__init__` on the
returned instance. -/
def configManagerCall (s : SingletonClassState) : SingletonClassState × Nat :=
  let (s1, i) := configManagerNew s
  (configManagerInit s1, i)

/-- The two ways client code obtains the manager. -/
inductive CMCall where
  | construct
  | getInstance
deriving Repr, DecidableEq

/-- `get_instance` (lines 91-94) just evaluates `cls()`, so both call forms
run `configManagerCall`. -/
def runCMCall (s : SingletonClassState) : CMCall → SingletonClassState × Nat
  | .construct => configManagerCall s
  | .getInstance => configManagerCall s

/-- Run a call sequence, collecting the returned object identities. -/
def runCMCalls (s : SingletonClassState) :
    List CMCall → SingletonClassState × List Nat
  | [] => (s, [])
  | c :: cs =>
    let (s1, i) := runCMCall s c
    let (s2, is) := runCMCalls s1 cs
    (s2, i :: is)

/-! ## Section 5: Dot-notation configuration get/set (singleton/solution.py)

`get` (lines 96-115) walks `self._config_data` along `key.split('.')` and
returns `default` on `KeyError`/`TypeError`; `set` (lines 117-137) navigates
`keys[:-1]`, creating empty dicts for missing keys, and assigns the final
key.  Navigating into or assigning on a non-dict value raises
(`TypeError`/`AttributeError`), modeled as an `Except` error with the
configuration unchanged. -/

/-- A JSON-like configuration value. -/
inductive ConfigValue where
  | str (s : String)
  | int (n : Int)
  | bool (b : Bool)
  | dict (entries : List (String × ConfigValue))

/-- Python `key.split('.')`: always nonempty; `""` yields `[""]`. -/
def splitDotAux : List Char → List Char → List String
  | acc, [] => [String.mk acc.reverse]
  | acc, c :: cs =>
    if c = ('.') then String.mk acc.reverse :: splitDotAux [] cs
    else splitDotAux (c :: acc) cs

/-- Python `key.split('.')`. -/
def splitDot (s : String) : List String :=
  splitDotAux [] s.data

/-- `get`'s walk: `for k in keys: value = value[k]`, where a missing key or
a non-dict value raises (caught by the caller). -/
def getPath : ConfigValue → List String → Option ConfigValue
  | v, [] => some v
  | v, k :: ks =>
    match v with
    | .dict d =>
      match d.lookup k with
      | some v2 => getPath v2 ks
      | Option.none => Option.none
    | _ => Option.none

/-- `set`'s navigation and final assignment (lines 119-130): walk
`keys[:-1]`, creating `{}` for missing keys; reaching a non-dict raises; the
last key is assigned into the reached dict. -/
def setPath : ConfigValue → List String → ConfigValue → Except Unit ConfigValue
  | .dict d, [k], v => .ok (.dict (dictAssign d k v))
  | .dict d, k1 :: k2 :: ks, v =>
    (match d.lookup k1 with
     | some sub =>
       match setPath sub (k2 :: ks) v with
       | .ok sub2 => .ok (.dict (dictAssign d k1 sub2))
       | .error e => .error e
     | Option.none =>
       match setPath (.dict []) (k2 :: ks) v with
       | .ok sub2 => .ok (.dict (dictAssign d k1 sub2))
       | .error e => .error e)
  | _, _ :: _, _ => .error ()
  | c, [], _ => .ok c

/-- Manager state touched by `get`/`set`: the configuration tree and the
access counter `get` increments. -/
structure ConfigManagerState where
  config_data : ConfigValue
  access_count : Nat

/-- `ConfigurationManager.get` (lines 96-115): bump the access count, walk
the key path, return `default` when the walk raises. -/
def cmGet (s : ConfigManagerState) (key : String) (dflt : ConfigValue) :
    ConfigValue × ConfigManagerState :=
  (match getPath s.config_data (splitDot key) with
   | some v => v
   | Option.none => dflt,
   { s with access_count := s.access_count + 1 })

/-- `ConfigurationManager.set` (lines 117-137): rewrite the tree along the
key path; on a raise the stored configuration is unchanged (the only
mutations before the raise create empty dicts that the raise makes
unreachable again; see `setPath`). -/
def cmSet (s : ConfigManagerState) (key : String) (v : ConfigValue) :
    Except Unit ConfigManagerState :=
  match setPath s.config_data (splitDot key) v with
  | .ok c => .ok { s with config_data := c }
  | .error e => .error e

/-- `_load_default_config` (singleton/solution.py lines 58-93). -/
def defaultConfigData : ConfigValue :=
  .dict
    [(("app"), .dict
        [(("name"), .str ("MyApplication")),
         (("version"), .str ("1.0.0")),
         (("debug"), .bool true)]),
     (("database"), .dict
        [(("host"), .str ("localhost")),
         (("port"), .int 5432),
         (("name"), .str ("myapp_db")),
         (("pool_size"), .int 10),
         (("timeout"), .int 30)]),
     (("cache"), .dict
        [(("enabled"), .bool true),
         (("ttl"), .int 3600),
         (("max_size"), .int 1000)]),
     (("logging"), .dict
        [(("level"), .str ("INFO")),
         (("file_enabled"), .bool true),
         (("console_enabled"), .bool true)]),
     (("security"), .dict
        [(("jwt_expiry"), .int 86400),
         (("password_min_length"), .int 8),
         (("rate_limit"), .int 100)])]

/-- The manager state right after initialization. -/
def defaultCMState : ConfigManagerState :=
  { config_data := defaultConfigData, access_count := 0 }

/-! ## Section 6: Repository file manifest

One record per Python source file of the repository, recording whether the
file defines a module-level `main()` function, whether it has an
`if __name__ == "__main__"` guard, and whether it contains any `print`
call.  The booleans transcribe the source files. -/

/-- Content area a file belongs to. -/
inductive FileCategory where
  | dsa
  | codeDesign
  | designPattern
deriving Repr, DecidableEq

/-- Facts about one source file. -/
structure SourceFile where
  path : String
  category : FileCategory
  definesMain : Bool
  hasMainGuard : Bool
  printsOutput : Bool
deriving Repr, DecidableEq

/-- All 40 Python files of the repository. -/
def repoFiles : List SourceFile :=
  [⟨("dsa/code/design-add-and-search-words-data-structure/solution.py"),
      .dsa, false, false, false⟩,
   ⟨("dsa/code/daily-temperatures/solution.py"), .dsa, false, false, false⟩,
   ⟨("dsa/code/find-median-from-data-stream/solution.py"),
      .dsa, false, false, false⟩,
   ⟨("dsa/code/palindromic-substrings/solution.py"), .dsa, false, false, false⟩,
   ⟨("dsa/code/longest-valid-parentheses/solution.py"),
      .dsa, false, false, false⟩,
   ⟨("dsa/code/merge-intervals/solution.py"), .dsa, false, false, false⟩,
   ⟨("dsa/code/sort-colors/solution.py"), .dsa, false, false, false⟩,
   ⟨("dsa/code/word-search-ii/solution.py"), .dsa, false, false, false⟩,
   ⟨("dsa/code/valid-anagram/solution.py"), .dsa, false, false, false⟩,
   ⟨("dsa/code/order-of-people-heights/solution.py"),
      .dsa, false, false, false⟩,
   ⟨("dsa/code/course-schedule/solution.py"), .dsa, false, false, false⟩,
   ⟨("dsa/code/validate-binary-search-tree/solution.py"),
      .dsa, false, false, false⟩,
   ⟨("dsa/code/decode-string/solution.py"), .dsa, false, false, false⟩,
   ⟨("dsa/code/climbing-stairs/solution.py"), .dsa, false, false, false⟩,
   ⟨("dsa/code/pacific-atlantic-water-flow/solution.py"),
      .dsa, false, false, false⟩,
   ⟨("dsa/code/sum-of-two-integers/solution.py"), .dsa, false, false, false⟩,
   ⟨("code-design/solutions/closest-org.py"), .codeDesign, false, false, false⟩,
   ⟨("design-pattern/code/private-class-data/solution.py"),
      .designPattern, false, true, true⟩,
   ⟨("design-pattern/code/mediator/solution.py"),
      .designPattern, true, true, true⟩,
   ⟨("design-pattern/code/prototype/solution.py"),
      .designPattern, true, true, true⟩,
   ⟨("design-pattern/code/template-method/solution.py"),
      .designPattern, true, true, true⟩,
   ⟨("design-pattern/code/object-pool/solution.py"),
      .designPattern, true, true, true⟩,
   ⟨("design-pattern/code/facade/solution.py"),
      .designPattern, true, true, true⟩,
   ⟨("design-pattern/code/singleton/solution.py"),
      .designPattern, true, true, true⟩,
   ⟨("design-pattern/code/flyweight/solution.py"),
      .designPattern, false, true, true⟩,
   ⟨("design-pattern/code/decorator/solution.py"),
      .designPattern, true, true, true⟩,
   ⟨("design-pattern/code/abstract-factory/solution.py"),
      .designPattern, true, true, true⟩,
   ⟨("design-pattern/code/command/solution.py"),
      .designPattern, true, true, true⟩,
   ⟨("design-pattern/code/visitor/solution.py"),
      .designPattern, true, true, true⟩,
   ⟨("design-pattern/code/builder/solution.py"),
      .designPattern, true, true, true⟩,
   ⟨("design-pattern/code/chain-of-responsibility/solution.py"),
      .designPattern, true, true, true⟩,
   ⟨("design-pattern/code/memento/solution.py"),
      .designPattern, false, true, true⟩,
   ⟨("design-pattern/code/state/solution.py"),
      .designPattern, true, true, true⟩,
   ⟨("design-pattern/code/observer/solution.py"),
      .designPattern, true, true, true⟩,
   ⟨("design-pattern/code/factory-method/solution.py"),
      .designPattern, true, true, true⟩,
   ⟨("design-pattern/code/strategy/solution.py"),
      .designPattern, true, true, true⟩,
   ⟨("design-pattern/code/interpreter/solution.py"),
      .designPattern, true, true, true⟩,
   ⟨("design-pattern/code/proxy/solution.py"),
      .designPattern, true, true, true⟩,
   ⟨("design-pattern/code/iterator/solution.py"),
      .designPattern, true, true, true⟩,
   ⟨("design-pattern/code/composite/solution.py"),
      .designPattern, true, true, true⟩]

/-! ## Section 7: Object pool acquire loop (object-pool/solution.py 311-361)

`acquire` runs a `while True` loop under the pool's condition variable:
try `get_nowait` (discarding invalid objects), else create when below
`max_size`, else wait with a per-iteration deadline check.  Pooled objects
are identified by `Nat` ids; wall-clock readings of `time.time()` (floats)
are embedded as rationals.  The list `readings` supplies, per blocked
iteration, the `time.time()` value observed at the deadline check; each
blocked iteration then performs one `Condition.wait`, whose return (notify,
timeout, or spurious wakeup alike) re-enters the loop.  An empty `readings`
list means the schedule ended while `acquire` was still blocked
(`.waiting`). -/

/-- Pool state: the `_available` FIFO queue (front at head), the `_in_use`
set (as an id list), `max_size`, and the statistics counters `acquire`
touches. -/
structure PoolState where
  available : List Nat
  inUse : List Nat
  maxSize : Nat
  totalCreated : Nat
  totalAcquired : Nat
  totalExpired : Nat
deriving Repr, DecidableEq

/-- How a run of `acquire` ends. -/
inductive AcquireResult where
  /-- Returned an object (popped valid, or freshly created). -/
  | acquired (obj : Nat)
  /-- Raised `TimeoutError("Timeout waiting for object from pool")`. -/
  | timeoutError
  /-- Still blocked when the wakeup/reading schedule ran out. -/
  | waiting
deriving Repr, DecidableEq

/-- The `while True` body of `ObjectPool.acquire` (lines 311-361), with no
concurrent `release`: pop-and-validate, create-below-capacity, or check the
deadline and wait.  `isValid` abstracts `obj.is_valid()`, `factory`
allocates the id of the `totalCreated`-th object. -/
def acquireLoop (isValid : Nat → Bool) (factory : Nat → Nat)
    (timeout : Option ℚ) (start : ℚ) :
    PoolState → List ℚ → AcquireResult × PoolState
  | s, readings =>
    match h : s.available with
    | o :: rest =>
      if isValid o then
        (.acquired o,
         { s with available := rest, inUse := o :: s.inUse,
                  totalAcquired := s.totalAcquired + 1 })
      else
        acquireLoop isValid factory timeout start
          { s with available := rest, totalExpired := s.totalExpired + 1 }
          readings
    | [] =>
      let currentTotal := s.available.length + s.inUse.length
      if currentTotal < s.maxSize then
        let o := factory s.totalCreated
        (.acquired o,
         { s with inUse := o :: s.inUse,
                  totalCreated := s.totalCreated + 1,
                  totalAcquired := s.totalAcquired + 1 })
      else
        match timeout with
        | some tv =>
          match readings with
          | [] => (.waiting, s)
          | r :: rs =>
            if tv - (r - start) ≤ 0 then (.timeoutError, s)
            else acquireLoop isValid factory timeout start s rs
        | Option.none =>
          match readings with
          | [] => (.waiting, s)
          | _ :: rs => acquireLoop isValid factory timeout start s rs
  termination_by s readings => s.available.length + readings.length
  decreasing_by
    all_goals simp_all

/-- A concrete exhausted pool: `max_size = 2`, both objects in use, empty
queue. -/
def poolExhausted : PoolState :=
  { available := [], inUse := [0, 1], maxSize := 2,
    totalCreated := 2, totalAcquired := 2, totalExpired := 0 }

/-! ## Section 8: Call graph of the object-pool demo

Which functions `main()` (object-pool/solution.py 507-671) can transitively
invoke.  `poolCalls f` lists the functions whose call sites occur in the
body of `f`, transcribed from the source; passing a function as a value
(the factory handed to `ObjectPool`, the worker submitted to the executor,
the thread target) is conservatively recorded as a call edge at the place
the value is produced as well as where it is invoked. -/

/-- The functions of object-pool/solution.py (plus the `time.sleep` and
`session.request` leaves). -/
inductive PoolFn where
  | main
  | httpWorker
  | serviceInit
  | makeRequest
  | batchRequests
  | poolInit
  | initializePool
  | startCleanupThread
  | cleanupLoop
  | cleanupExpired
  | ensureMinimum
  | acquire
  | release
  | getStatistics
  | shutdown
  | connectionFactory
  | connInit
  | initializeSession
  | resetConn
  | isValidConn
  | getIdConn
  | getStatus
  | getMethod
  | postMethod
  | putMethod
  | deleteMethod
  | requestMethod
  | closeConn
  | timeSleep
  | printCall
  | sessionRequest
deriving Repr, DecidableEq, Fintype

/-- Call edges, one entry per function body (source lines given per body in
the comments of the section header; `requestMethod` is
`HTTPConnection._request`, the only body invoking `session.request`). -/
def poolCalls : PoolFn → List PoolFn
  | .main =>
    [.connectionFactory, .poolInit, .acquire, .getStatus, .getStatistics,
     .getIdConn, .release, .serviceInit, .httpWorker, .isValidConn,
     .shutdown, .timeSleep, .printCall]
  | .httpWorker => [.printCall, .acquire, .timeSleep, .release]
  | .serviceInit => []
  | .makeRequest =>
    [.acquire, .getMethod, .postMethod, .putMethod, .deleteMethod,
     .release, .printCall]
  | .batchRequests => [.makeRequest]
  | .poolInit =>
    [.initializePool, .startCleanupThread, .connectionFactory, .printCall]
  | .initializePool => [.connectionFactory, .printCall]
  | .startCleanupThread => [.cleanupLoop]
  | .cleanupLoop => [.timeSleep, .cleanupExpired, .ensureMinimum, .printCall]
  | .cleanupExpired => [.isValidConn, .closeConn, .printCall]
  | .ensureMinimum => [.connectionFactory, .printCall]
  | .acquire =>
    [.isValidConn, .getIdConn, .closeConn, .connectionFactory, .printCall]
  | .release => [.isValidConn, .resetConn, .getIdConn, .closeConn, .printCall]
  | .getStatistics => []
  | .shutdown => [.closeConn, .getStatistics, .printCall]
  | .connectionFactory => [.connInit]
  | .connInit => [.initializeSession, .timeSleep, .printCall]
  | .initializeSession => []
  | .resetConn => [.printCall]
  | .isValidConn => [.printCall]
  | .getIdConn => []
  | .getStatus => [.isValidConn]
  | .getMethod => [.requestMethod]
  | .postMethod => [.requestMethod]
  | .putMethod => [.requestMethod]
  | .deleteMethod => [.requestMethod]
  | .requestMethod =>
    [.isValidConn, .printCall, .timeSleep, .sessionRequest]
  | .closeConn => [.printCall]
  | .timeSleep => []
  | .printCall => []
  | .sessionRequest => []

/-- One call step: `g` has a call site in the body of `f`. -/
def CallEdge (f g : PoolFn) : Prop := g ∈ poolCalls f

/-- `f` transitively invokes `g` (reflexive-transitive closure). -/
def Invokes (f g : PoolFn) : Prop := Relation.ReflTransGen CallEdge f g

/-- Everything `main` can transitively invoke. -/
def mainReachable : List PoolFn :=
  [.main, .httpWorker, .serviceInit, .poolInit, .initializePool,
   .startCleanupThread, .cleanupLoop, .cleanupExpired, .ensureMinimum,
   .acquire, .release, .getStatistics, .shutdown, .connectionFactory,
   .connInit, .initializeSession, .resetConn, .isValidConn, .getIdConn,
   .getStatus, .closeConn, .timeSleep, .printCall]

/-! ## Theorems -/

/-- C1: on a freshly constructed `HttpRequestBuilder`, each of the seven
attribute names assigned in `__init__` shadows the like-named fluent method,
so an attribute call `b.name(arg)` raises `TypeError` for every argument —
the method bodies (and in particular the `ValueError` branches of `timeout`
and `retries`) are never reached through normal attribute access. -/
theorem c1_init_attributes_shadow_methods
    (url method : String) (arg : PyVal) (name : String)
    (hname : name ∈ shadowedNames) :
    callBuilderAttr (freshBuilderInstanceDict url method) name arg =
      CallOutcome.typeError := by
  fin_cases hname <;> rfl

/-- Witness for C1: `b.timeout(10)` on a fresh builder, as in `main()`
(builder/solution.py line 254), raises `TypeError`. -/
theorem c1_witness :
    callBuilderAttr
      (freshBuilderInstanceDict ("https://api.github.com/user") ("GET"))
      ("timeout") (PyVal.int 10) = CallOutcome.typeError :=
  c1_init_attributes_shadow_methods ("https://api.github.com/user") ("GET")
    (PyVal.int 10) ("timeout") (by decide)

/-- C2: `build()` raises `ValueError` exactly on malformed URLs: an empty
url or one starting with neither `http://` nor `https://` yields an error;
a url with a good scheme yields an `HttpRequest` whose `url` and `method`
equal the builder's. -/
theorem c2_build_rejects_malformed_urls (b : HttpRequestBuilderState) :
    ((b.url = ("") ∨
      (pyStartsWith b.url ("http://") = false ∧
       pyStartsWith b.url ("https://") = false)) →
      ∃ e, b.build = Except.error e) ∧
    ((pyStartsWith b.url ("http://") = true ∨
      pyStartsWith b.url ("https://") = true) →
      ∃ r, b.build = Except.ok r ∧ r.url = b.url ∧ r.method = b.method) := by
  constructor
  · intro h1
    by_cases hurl : b.url = ("")
    · exact ⟨.urlRequired, by simp [HttpRequestBuilderState.build, hurl]⟩
    · rcases h1 with h | ⟨ha, hb⟩
      · exact absurd h hurl
      · exact ⟨.urlBadScheme,
          by simp [HttpRequestBuilderState.build, hurl, ha, hb]⟩
  · intro h2
    have hurl : ¬ b.url = ("") := by
      rcases h2 with h | h <;> intro he <;> rw [he] at h <;> exact absurd h (by decide)
    have hor : (pyStartsWith b.url ("http://") ||
                pyStartsWith b.url ("https://")) = true := by
      rcases h2 with h | h <;> simp [h]
    have hb : b.build = Except.ok
        { url := b.url, method := b.method,
          headers := if b.cookies.isEmpty then b.headers
            else dictAssign b.headers ("Cookie") (cookieString b.cookies),
          query_params := b.query_params, body := b.body,
          timeout := b.timeout, retries := b.retries, auth := b.auth,
          cookies := b.cookies, follow_redirects := b.follow_redirects,
          verify_ssl := b.verify_ssl } := by
      unfold HttpRequestBuilderState.build
      rw [if_neg hurl, if_neg (not_not_intro hor)]
    exact ⟨_, hb, rfl, rfl⟩

/-- Witness for C2: `HttpRequestBuilder("not-a-url").build()` errors, and a
builder for `https://api.github.com/user` builds successfully with the same
url and method. -/
theorem c2_witness :
    (∃ e, HttpRequestBuilderState.build
      { url := ("not-a-url"), method := .GET, headers := [],
        query_params := [], body := Option.none, timeout := 30, retries := 3,
        auth := Option.none, cookies := [], follow_redirects := true,
        verify_ssl := true } = Except.error e) ∧
    (∃ r, HttpRequestBuilderState.build
      { url := ("https://api.github.com/user"), method := .GET,
        headers := [], query_params := [], body := Option.none,
        timeout := 30, retries := 3, auth := Option.none, cookies := [],
        follow_redirects := true, verify_ssl := true } = Except.ok r ∧
      r.url = ("https://api.github.com/user") ∧ r.method = .GET) :=
  ⟨(c2_build_rejects_malformed_urls _).1 (Or.inr ⟨by decide, by decide⟩),
   (c2_build_rejects_malformed_urls _).2 (Or.inr (by decide))⟩

/-- C4: `save_state`, then `write`, then `undo` restores the editor's
`content`, `cursor_position` and `selection_text` to the saved state, for
every starting editor state, history and written string. -/
theorem c4_undo_after_write_restores
    (e : TextEditor) (h : EditorHistory) (t : String) :
    (((h.save_state e).undo (e.write t)).2.content = e.content) ∧
    (((h.save_state e).undo (e.write t)).2.cursor_position =
      e.cursor_position) ∧
    (((h.save_state e).undo (e.write t)).2.selection_text =
      e.selection_text) :=
  ⟨rfl, rfl, rfl⟩

/-- The slice bound never exceeds the length. -/
theorem pySliceIndex_le (n : Nat) (i : Int) : pySliceIndex n i ≤ n := by
  unfold pySliceIndex
  split <;> omega

/-- For an in-range nonnegative bound the slice index is `i` itself. -/
theorem pySliceIndex_of_nonneg (n : Nat) (i : Int) (h0 : 0 ≤ i)
    (h1 : i ≤ (n : Int)) : pySliceIndex n i = i.toNat := by
  unfold pySliceIndex
  split <;> omega

/-- Length of a Python head slice. -/
theorem length_pyTake (s : String) (i : Int) :
    (pyTake s i).length = pySliceIndex s.length i := by
  show (s.data.take (pySliceIndex s.length i)).length = _
  rw [List.length_take]
  exact Nat.min_eq_left (pySliceIndex_le _ _)

/-- Length of a Python tail slice. -/
theorem length_pyDrop (s : String) (i : Int) :
    (pyDrop s i).length = s.length - pySliceIndex s.length i := by
  show (s.data.drop (pySliceIndex s.length i)).length = _
  rw [List.length_drop]
  rfl

/-- C10 (amended): the invariant `0 <= cursor_position <= len(content)`
holds initially and is preserved by `write`, `set_cursor_position` and
`select_text` for all arguments, and by `delete` for nonnegative character
counts.  (For negative `characters`, `delete` breaks it; see the
counterexample.) -/
theorem c10_cursor_invariant_preserved
    (e : TextEditor) (t : String) (p a b ch : Int)
    (hinv : cursorInvariant e) (hch : 0 ≤ ch) :
    cursorInvariant TextEditor.init ∧
    cursorInvariant (e.write t) ∧
    cursorInvariant (e.set_cursor_position p) ∧
    cursorInvariant (e.select_text a b) ∧
    cursorInvariant (e.delete ch) := by
  obtain ⟨h0, h1⟩ := hinv
  refine ⟨by decide, ?_, ?_, ?_, ?_⟩
  · constructor
    · show 0 ≤ e.cursor_position + (t.length : Int)
      omega
    · show e.cursor_position + (t.length : Int) ≤
        ((pyTake e.content e.cursor_position ++ t ++
          pyDrop e.content e.cursor_position).length : Int)
      rw [String.length_append, String.length_append, length_pyTake,
          length_pyDrop, pySliceIndex_of_nonneg _ _ h0 h1]
      omega
  · constructor
    · show 0 ≤ max 0 (min p (e.content.length : Int))
      omega
    · show max 0 (min p (e.content.length : Int)) ≤ (e.content.length : Int)
      omega
  · unfold TextEditor.select_text
    split
    · exact ⟨h0, h1⟩
    · exact ⟨h0, h1⟩
  · constructor
    · show 0 ≤ max 0 (e.cursor_position - ch)
      omega
    · show max 0 (e.cursor_position - ch) ≤
        ((pyTake e.content (max 0 (e.cursor_position - ch)) ++
          pyDrop e.content e.cursor_position).length : Int)
      rw [String.length_append, length_pyTake, length_pyDrop,
          pySliceIndex_of_nonneg _ _ h0 h1,
          pySliceIndex_of_nonneg _ _ (by omega) (by omega)]
      omega

/-- Witness for C10: the invariant holds after writing `"hi"` to a fresh
editor. -/
theorem c10_witness : cursorInvariant (TextEditor.init.write ("hi")) :=
  (c10_cursor_invariant_preserved TextEditor.init ("hi") 0 0 0 0
    (by decide) (by decide)).2.1

/-- Counterexample for C10 as stated: `delete(-5)` on a fresh editor sets
`cursor_position` to 5 while the content stays empty, breaking
`0 <= cursor_position <= len(content)` (memento/solution.py lines 40-46:
`start_pos = max(0, cursor - characters)` grows past `len(content)` for
negative `characters`). -/
theorem c10_counterexample :
    cursorInvariant TextEditor.init ∧
    ¬ cursorInvariant (TextEditor.init.delete (-5)) := by
  constructor
  · decide
  · decide

/-- After the first call the class state is stable: instance 0 allocated,
initialized, one init-body run. -/
def cmStableState : SingletonClassState :=
  { instanceId := some 0, instInitialized := true, initBodyRuns := 1,
    nextAllocId := 1 }

/-- Every call on the stable state returns instance 0 and changes nothing. -/
theorem runCMCall_stable (c : CMCall) :
    runCMCall cmStableState c = (cmStableState, 0) := by
  cases c <;> rfl

/-- Call sequences on the stable state return only instance 0. -/
theorem runCMCalls_stable (cs : List CMCall) :
    runCMCalls cmStableState cs = (cmStableState, List.replicate cs.length 0) := by
  induction cs with
  | nil => rfl
  | cons c cs ih =>
    simp [runCMCalls, runCMCall_stable, ih, List.replicate_succ]

/-- C5: for every nonempty sequence of `ConfigurationManager()` /
`get_instance()` calls from the fresh class state, every call returns the
same object (allocation id 0, and only one allocation ever happens), and
the `__init__` body past the `_initialized` guard runs exactly once. -/
theorem c5_singleton_unique_instance (calls : List CMCall)
    (hne : calls ≠ []) :
    (∀ i ∈ (runCMCalls SingletonClassState.start calls).2, i = 0) ∧
    (runCMCalls SingletonClassState.start calls).1.initBodyRuns = 1 ∧
    (runCMCalls SingletonClassState.start calls).1.nextAllocId = 1 := by
  match calls with
  | [] => exact absurd rfl hne
  | c :: cs =>
    have hfirst : runCMCall SingletonClassState.start c =
        (cmStableState, 0) := by
      cases c <;> rfl
    simp only [runCMCalls, hfirst, runCMCalls_stable]
    refine ⟨?_, rfl, rfl⟩
    intro i hi
    rcases List.mem_cons.mp hi with h | h
    · exact h
    · exact List.eq_of_mem_replicate h

/-- Witness for C5: the three-call sequence of `main()`
(singleton/solution.py lines 340-342) allocates once and initializes
once. -/
theorem c5_witness :
    (runCMCalls SingletonClassState.start
      [CMCall.getInstance, CMCall.construct, CMCall.getInstance]).1.initBodyRuns
        = 1 ∧
    (runCMCalls SingletonClassState.start
      [CMCall.getInstance, CMCall.construct, CMCall.getInstance]).1.nextAllocId
        = 1 :=
  ⟨(c5_singleton_unique_instance
      [CMCall.getInstance, CMCall.construct, CMCall.getInstance]
      (by decide)).2.1,
   (c5_singleton_unique_instance
      [CMCall.getInstance, CMCall.construct, CMCall.getInstance]
      (by decide)).2.2⟩

/-- Counterexample for C6 as stated: the climbing-stairs DSA solution is a
source file of the repository, yet it defines no `main()`, has no
`if __name__ == "__main__"` guard, and contains no `print` call — so it is
not a `main()`-driven script that prints output.  (All 16 DSA files and
`closest-org.py` are like this; `memento`, `flyweight` and
`private-class-data` have a guard but no `main()`.) -/
theorem c6_counterexample :
    (⟨("dsa/code/climbing-stairs/solution.py"), .dsa, false, false, false⟩ :
        SourceFile) ∈ repoFiles ∧
    SourceFile.definesMain
      ⟨("dsa/code/climbing-stairs/solution.py"), .dsa, false, false, false⟩
        = false ∧
    SourceFile.hasMainGuard
      ⟨("dsa/code/climbing-stairs/solution.py"), .dsa, false, false, false⟩
        = false ∧
    SourceFile.printsOutput
      ⟨("dsa/code/climbing-stairs/solution.py"), .dsa, false, false, false⟩
        = false := by
  refine ⟨by decide, rfl, rfl, rfl⟩

/-- C6 (amended): every design-pattern demo file runs its demo under an
`if __name__ == "__main__"` guard and prints illustrative output (most via
a `main()` function), while the DSA and code-design files define bare
solution classes with no `main()`, no guard and no printing. -/
theorem c6_scripts_by_category (f : SourceFile) (hf : f ∈ repoFiles) :
    (f.category = FileCategory.designPattern →
      f.hasMainGuard = true ∧ f.printsOutput = true) ∧
    (f.category ≠ FileCategory.designPattern →
      f.definesMain = false ∧ f.hasMainGuard = false ∧
      f.printsOutput = false) := by
  revert f
  decide

/-- Witness for C6: the builder demo file has a guard and prints; the
climbing-stairs DSA file has no `main`, guard or print. -/
theorem c6_witness :
    (SourceFile.hasMainGuard
        ⟨("design-pattern/code/builder/solution.py"),
         .designPattern, true, true, true⟩ = true ∧
      SourceFile.printsOutput
        ⟨("design-pattern/code/builder/solution.py"),
         .designPattern, true, true, true⟩ = true) ∧
    (SourceFile.definesMain
        ⟨("dsa/code/climbing-stairs/solution.py"),
         .dsa, false, false, false⟩ = false ∧
      SourceFile.hasMainGuard
        ⟨("dsa/code/climbing-stairs/solution.py"),
         .dsa, false, false, false⟩ = false ∧
      SourceFile.printsOutput
        ⟨("dsa/code/climbing-stairs/solution.py"),
         .dsa, false, false, false⟩ = false) :=
  ⟨(c6_scripts_by_category _ (by decide)).1 rfl,
   (c6_scripts_by_category _ (by decide)).2 (by decide)⟩

/-- Looking up the key just assigned by `dictAssign` finds the new value. -/
theorem lookup_dictAssign {α : Type} (d : List (String × α)) (k : String)
    (v : α) : (dictAssign d k v).lookup k = some v := by
  induction d with
  | nil => simp [dictAssign]
  | cons hd tl ih =>
    obtain ⟨a, b⟩ := hd
    by_cases hak : a = k
    · subst hak
      simp [dictAssign, List.lookup]
    · have hka : (k == a) = false := beq_eq_false_iff_ne.mpr (Ne.symm hak)
      by_cases htl : tl.any (fun kv => kv.1 = k)
      · have h1 : dictAssign tl k v =
            tl.map (fun kv => if kv.1 = k then (k, v) else kv) := by
          simp [dictAssign, htl]
        have h2 : dictAssign ((a, b) :: tl) k v =
            (a, b) :: tl.map (fun kv => if kv.1 = k then (k, v) else kv) := by
          simp [dictAssign, hak, htl]
        rw [h2]
        simp only [List.lookup, hka]
        rw [← h1, ih]
      · have h1 : dictAssign tl k v = tl ++ [(k, v)] := by
          simp [dictAssign, htl]
        have h2 : dictAssign ((a, b) :: tl) k v = (a, b) :: (tl ++ [(k, v)]) := by
          simp [dictAssign, hak, htl]
        rw [h2]
        simp only [List.lookup, hka]
        rw [← h1, ih]

/-- `split('.')` never yields an empty list. -/
theorem splitDotAux_ne_nil (acc l : List Char) : splitDotAux acc l ≠ [] := by
  induction l generalizing acc with
  | nil => simp [splitDotAux]
  | cons c cs ih =>
    unfold splitDotAux
    split
    · simp
    · exact ih _

/-- `key.split('.')` is nonempty for every key. -/
theorem splitDot_ne_nil (s : String) : splitDot s ≠ [] :=
  splitDotAux_ne_nil [] s.data

/-- A successful `setPath` makes `getPath` find the assigned value. -/
theorem getPath_setPath (keys : List String) :
    ∀ (c c' v : ConfigValue), keys ≠ [] →
      setPath c keys v = Except.ok c' → getPath c' keys = some v := by
  induction keys with
  | nil => intro c c' v hne; exact absurd rfl hne
  | cons k ks ih =>
    intro c c' v _ hset
    cases c with
    | dict d =>
      cases ks with
      | nil =>
        simp only [setPath, Except.ok.injEq] at hset
        subst hset
        simp [getPath, lookup_dictAssign]
      | cons k2 ks2 =>
        cases hlk : d.lookup k with
        | some sub =>
          simp only [setPath, hlk] at hset
          cases hsp : setPath sub (k2 :: ks2) v with
          | ok sub2 =>
            rw [hsp] at hset
            simp only [Except.ok.injEq] at hset
            subst hset
            simp only [getPath, lookup_dictAssign]
            exact ih sub sub2 v (by simp) hsp
          | error e =>
            rw [hsp] at hset
            exact Except.noConfusion hset
        | none =>
          simp only [setPath, hlk] at hset
          cases hsp : setPath (ConfigValue.dict []) (k2 :: ks2) v with
          | ok sub2 =>
            rw [hsp] at hset
            simp only [Except.ok.injEq] at hset
            subst hset
            simp only [getPath, lookup_dictAssign]
            exact ih (ConfigValue.dict []) sub2 v (by simp) hsp
          | error e =>
            rw [hsp] at hset
            exact Except.noConfusion hset
    | str s => cases ks <;> simp [setPath] at hset
    | int n => cases ks <;> simp [setPath] at hset
    | bool b2 => cases ks <;> simp [setPath] at hset

/-- C9 (amended): when `set(k, v)` completes without raising, `get(k)`
immediately afterwards returns `v`; and when no value lies on the key path,
`get(k, default)` returns the supplied default.  (When the path crosses an
existing non-dict value, `set` raises and leaves the configuration
unchanged; see the counterexample.) -/
theorem c9_get_set_round_trip (s : ConfigManagerState) (key : String)
    (v dflt : ConfigValue) :
    (∀ s', cmSet s key v = Except.ok s' → (cmGet s' key dflt).1 = v) ∧
    (getPath s.config_data (splitDot key) = Option.none →
      (cmGet s key dflt).1 = dflt) := by
  constructor
  · intro s' hset
    unfold cmSet at hset
    cases hsp : setPath s.config_data (splitDot key) v with
    | ok c =>
      rw [hsp] at hset
      simp only [Except.ok.injEq] at hset
      subst hset
      show (match getPath c (splitDot key) with
            | some w => w
            | Option.none => dflt) = v
      rw [getPath_setPath (splitDot key) s.config_data c v
        (splitDot_ne_nil key) hsp]
    | error e =>
      rw [hsp] at hset
      exact Except.noConfusion hset
  · intro hnone
    show (match getPath s.config_data (splitDot key) with
          | some w => w
          | Option.none => dflt) = dflt
    rw [hnone]

/-- Witness for C9: setting `a.b = 7` in an empty configuration makes
`get("a.b")` return 7, and `get("q", fallback)` on the empty configuration
returns the fallback. -/
theorem c9_witness :
    (cmGet { config_data := ConfigValue.dict
               [(("a"), ConfigValue.dict [(("b"), ConfigValue.int 7)])],
             access_count := 0 } ("a.b") (ConfigValue.int 0)).1 =
      ConfigValue.int 7 ∧
    (cmGet { config_data := ConfigValue.dict [], access_count := 0 } ("q")
       (ConfigValue.str ("fallback"))).1 = ConfigValue.str ("fallback") :=
  ⟨(c9_get_set_round_trip
      { config_data := ConfigValue.dict [], access_count := 0 } ("a.b")
      (ConfigValue.int 7) (ConfigValue.int 0)).1
      { config_data := ConfigValue.dict
          [(("a"), ConfigValue.dict [(("b"), ConfigValue.int 7)])],
        access_count := 0 } rfl,
   (c9_get_set_round_trip
      { config_data := ConfigValue.dict [], access_count := 0 } ("q")
      (ConfigValue.int 7) (ConfigValue.str ("fallback"))).2 rfl⟩

/-- Counterexample for C9 as stated: for the key path `app.name.x` on the
default configuration, `set` raises (navigation hits the string at
`app.name`, singleton/solution.py lines 123-127), so `get` afterwards
returns the default, not the value that was set. -/
theorem c9_counterexample :
    cmSet defaultCMState ("app.name.x") (ConfigValue.int 1) =
      Except.error () ∧
    (cmGet defaultCMState ("app.name.x") (ConfigValue.int 0)).1 =
      ConfigValue.int 0 ∧
    ConfigValue.int 0 ≠ ConfigValue.int 1 :=
  ⟨rfl, rfl, by simp⟩

/-- One blocked iteration with a timeout: deadline check, then wait and
re-enter the loop. -/
theorem acquireLoop_blocked_step (iv : Nat → Bool) (fac : Nat → Nat)
    (tv start : ℚ) (iu : List Nat) (ms tc ta te : Nat)
    (hfull : ms ≤ iu.length) (r : ℚ) (rs : List ℚ) :
    acquireLoop iv fac (some tv) start
        ⟨[], iu, ms, tc, ta, te⟩ (r :: rs) =
      if tv - (r - start) ≤ 0 then
        (AcquireResult.timeoutError, ⟨[], iu, ms, tc, ta, te⟩)
      else acquireLoop iv fac (some tv) start ⟨[], iu, ms, tc, ta, te⟩ rs := by
  have hcap : ¬ (iu.length < ms) := by omega
  simp [acquireLoop, hcap]

/-- A blocked pool with a timeout and no further wakeups stays blocked. -/
theorem acquireLoop_blocked_nil (iv : Nat → Bool) (fac : Nat → Nat)
    (tv start : ℚ) (iu : List Nat) (ms tc ta te : Nat)
    (hfull : ms ≤ iu.length) :
    acquireLoop iv fac (some tv) start ⟨[], iu, ms, tc, ta, te⟩ [] =
      (AcquireResult.waiting, ⟨[], iu, ms, tc, ta, te⟩) := by
  have hcap : ¬ (iu.length < ms) := by omega
  simp [acquireLoop, hcap]

/-- One blocked iteration without a timeout: wait one second and re-enter
the loop. -/
theorem acquireLoop_blocked_step_none (iv : Nat → Bool) (fac : Nat → Nat)
    (start : ℚ) (iu : List Nat) (ms tc ta te : Nat)
    (hfull : ms ≤ iu.length) (r : ℚ) (rs : List ℚ) :
    acquireLoop iv fac Option.none start ⟨[], iu, ms, tc, ta, te⟩ (r :: rs) =
      acquireLoop iv fac Option.none start ⟨[], iu, ms, tc, ta, te⟩ rs := by
  have hcap : ¬ (iu.length < ms) := by omega
  simp [acquireLoop, hcap]

/-- A blocked pool without a timeout and no further wakeups stays blocked. -/
theorem acquireLoop_blocked_nil_none (iv : Nat → Bool) (fac : Nat → Nat)
    (start : ℚ) (iu : List Nat) (ms tc ta te : Nat)
    (hfull : ms ≤ iu.length) :
    acquireLoop iv fac Option.none start ⟨[], iu, ms, tc, ta, te⟩ [] =
      (AcquireResult.waiting, ⟨[], iu, ms, tc, ta, te⟩) := by
  have hcap : ¬ (iu.length < ms) := by omega
  simp [acquireLoop, hcap]

/-- C3: on an exhausted pool (empty queue, `max_size` objects in use) with
no release, `acquire(timeout=t)` with finite `t > 0` raises `TimeoutError`
once a deadline check observes that `t` seconds have elapsed since `start`,
and the pool state — in particular the in-use set — is unchanged. -/
theorem c3_exhausted_acquire_times_out
    (isValid : Nat → Bool) (factory : Nat → Nat) (s : PoolState)
    (tv start : ℚ) (readings : List ℚ)
    (hav : s.available = []) (hfull : s.maxSize ≤ s.inUse.length)
    (ht : 0 < tv) (hreach : ∃ r ∈ readings, start + tv ≤ r) :
    acquireLoop isValid factory (some tv) start s readings =
      (AcquireResult.timeoutError, s) := by
  obtain ⟨av, iu, ms, tc, ta, te⟩ := s
  simp only at hav hfull
  subst hav
  revert hreach
  induction readings with
  | nil =>
    intro hreach
    rcases hreach with ⟨r, hr, _⟩
    simp at hr
  | cons r rs ih =>
    intro hreach
    rw [acquireLoop_blocked_step isValid factory tv start iu ms tc ta te
      hfull r rs]
    by_cases hr0 : tv - (r - start) ≤ 0
    · rw [if_pos hr0]
    · rw [if_neg hr0]
      apply ih
      rcases hreach with ⟨r2, hr2, hge⟩
      rcases List.mem_cons.mp hr2 with hh | hh
      · subst hh
        exact absurd (by linarith) hr0
      · exact ⟨r2, hh, hge⟩

/-- Witness for C3: the exhaustion test of `main()` (object-pool/solution.py
lines 612-632) with `timeout=2`: deadline checks at `0.5`, `1.5` and `2.5`
seconds end in `TimeoutError` with the pool unchanged. -/
theorem c3_witness :
    acquireLoop (fun _ => true) (fun n => n) (some 2) 0 poolExhausted
      [1/2, 3/2, 5/2] = (AcquireResult.timeoutError, poolExhausted) :=
  c3_exhausted_acquire_times_out (fun _ => true) (fun n => n) poolExhausted
    2 0 [1/2, 3/2, 5/2] rfl (by decide) (by norm_num)
    ⟨5/2, by simp, by norm_num⟩

/-- Counterexample for C7 as stated: a concrete run on an exhausted pool in
which four successive wakeups of the condition wait (spurious or notified
alike) all re-enter the loop, re-check the queue and the capacity bound,
and `acquire` still does not return — it is left waiting, having returned
no object. -/
theorem c7_counterexample :
    acquireLoop (fun _ => true) (fun n => n) (some 5) 0 poolExhausted
      [0, 1, 2, 3] = (AcquireResult.waiting, poolExhausted) := by
  show acquireLoop (fun _ => true) (fun n => n) (some 5) 0
      ⟨[], [0, 1], 2, 2, 2, 0⟩ [0, 1, 2, 3] =
    (AcquireResult.waiting, ⟨[], [0, 1], 2, 2, 2, 0⟩)
  rw [acquireLoop_blocked_step (fun _ => true) (fun n => n) 5 0 [0, 1]
        2 2 2 0 (by decide) 0 [1, 2, 3],
      if_neg (by norm_num),
      acquireLoop_blocked_step (fun _ => true) (fun n => n) 5 0 [0, 1]
        2 2 2 0 (by decide) 1 [2, 3],
      if_neg (by norm_num),
      acquireLoop_blocked_step (fun _ => true) (fun n => n) 5 0 [0, 1]
        2 2 2 0 (by decide) 2 [3],
      if_neg (by norm_num),
      acquireLoop_blocked_step (fun _ => true) (fun n => n) 5 0 [0, 1]
        2 2 2 0 (by decide) 3 [],
      if_neg (by norm_num),
      acquireLoop_blocked_nil (fun _ => true) (fun n => n) 5 0 [0, 1]
        2 2 2 0 (by decide)]

/-- C7 (amended): every wakeup of the condition wait inside
`ObjectPool.acquire` re-enters the `while True` loop, which re-checks the
queue (`get_nowait`) and the capacity bound before any return; hence on an
exhausted pool with no release, `acquire` never returns an object, for
every timeout setting and every schedule of wakeups, and the pool state is
unchanged. -/
theorem c7_amended_wakeups_recheck
    (isValid : Nat → Bool) (factory : Nat → Nat) (tOpt : Option ℚ)
    (start : ℚ) (s : PoolState) (readings : List ℚ)
    (hav : s.available = []) (hfull : s.maxSize ≤ s.inUse.length) :
    (∀ o, (acquireLoop isValid factory tOpt start s readings).1 ≠
      AcquireResult.acquired o) ∧
    (acquireLoop isValid factory tOpt start s readings).2 = s := by
  obtain ⟨av, iu, ms, tc, ta, te⟩ := s
  simp only at hav hfull
  subst hav
  induction readings with
  | nil =>
    cases tOpt with
    | some tv =>
      rw [acquireLoop_blocked_nil isValid factory tv start iu ms tc ta te
        hfull]
      exact ⟨fun o h => AcquireResult.noConfusion h, rfl⟩
    | none =>
      rw [acquireLoop_blocked_nil_none isValid factory start iu ms tc ta te
        hfull]
      exact ⟨fun o h => AcquireResult.noConfusion h, rfl⟩
  | cons r rs ih =>
    cases tOpt with
    | some tv =>
      rw [acquireLoop_blocked_step isValid factory tv start iu ms tc ta te
        hfull r rs]
      by_cases hr0 : tv - (r - start) ≤ 0
      · rw [if_pos hr0]
        exact ⟨fun o h => AcquireResult.noConfusion h, rfl⟩
      · rw [if_neg hr0]
        exact ih
    | none =>
      rw [acquireLoop_blocked_step_none isValid factory start iu ms tc ta te
        hfull r rs]
      exact ih

/-- Witness for C7's amended statement: on the concrete exhausted pool with
a two-wakeup schedule and no timeout, `acquire` does not return object 5
and the state is unchanged. -/
theorem c7_witness :
    (acquireLoop (fun _ => true) (fun n => n) Option.none 0 poolExhausted
      [1, 2]).1 ≠ AcquireResult.acquired 5 ∧
    (acquireLoop (fun _ => true) (fun n => n) Option.none 0 poolExhausted
      [1, 2]).2 = poolExhausted :=
  ⟨(c7_amended_wakeups_recheck (fun _ => true) (fun n => n) Option.none 0
      poolExhausted [1, 2] rfl (by decide)).1 5,
   (c7_amended_wakeups_recheck (fun _ => true) (fun n => n) Option.none 0
      poolExhausted [1, 2] rfl (by decide)).2⟩

/-- `mainReachable` is closed under call edges. -/
theorem mainReachable_closed :
    ∀ f ∈ mainReachable, ∀ g ∈ poolCalls f, g ∈ mainReachable := by
  decide

/-- Everything `main` transitively invokes lies in `mainReachable`. -/
theorem invokes_main_subset (g : PoolFn) (h : Invokes PoolFn.main g) :
    g ∈ mainReachable := by
  induction h with
  | refl => decide
  | tail _ hstep ih => exact mainReachable_closed _ ih _ hstep

/-- C8: running the object-pool demo's `main()` (with its concurrent
`http_worker` workers and the cleanup thread) never invokes
`HTTPConnection._request` nor any of the `get`/`post`/`put`/`delete`
wrappers, and those wrappers together with `_request` are the only route to
`session.request`; the workers only acquire, sleep and release. -/
theorem c8_no_network_calls :
    ¬ Invokes PoolFn.main PoolFn.requestMethod ∧
    ¬ Invokes PoolFn.main PoolFn.getMethod ∧
    ¬ Invokes PoolFn.main PoolFn.postMethod ∧
    ¬ Invokes PoolFn.main PoolFn.putMethod ∧
    ¬ Invokes PoolFn.main PoolFn.deleteMethod ∧
    ¬ Invokes PoolFn.main PoolFn.sessionRequest ∧
    (∀ f, PoolFn.sessionRequest ∈ poolCalls f → f = PoolFn.requestMethod) ∧
    poolCalls PoolFn.httpWorker =
      [PoolFn.printCall, PoolFn.acquire, PoolFn.timeSleep, PoolFn.release] :=
  ⟨fun h => by have := invokes_main_subset _ h; revert this; decide,
   fun h => by have := invokes_main_subset _ h; revert this; decide,
   fun h => by have := invokes_main_subset _ h; revert this; decide,
   fun h => by have := invokes_main_subset _ h; revert this; decide,
   fun h => by have := invokes_main_subset _ h; revert this; decide,
   fun h => by have := invokes_main_subset _ h; revert this; decide,
   by decide, rfl⟩
